import Mathlib

/-
  Verification of the esdf event-sourced aggregate core.

  Shallow embedding of src/EventSourcedAggregate.js (EventSourcedAggregate and
  DummyAggregateSnapshotter) and src/abandoned/Persistence/AggregateLoader.js.
  JavaScript promises are modelled by Except values: a resolved promise is
  Except.ok, a rejected one is Except.error. Side effects on the external
  collaborators (event sink, snapshotter) are made observable by recording the
  list of calls issued to them during one method invocation.
-/

namespace Esdf

/-- An Event as used by EventSourcedAggregate: a type tag used for dispatch,
an opaque payload, the aggregate id stamped on it at staging time, and an
optional command id used for deduplication. -/
structure Event where
  eventType : String
  payload : String
  aggregateID : Option String
  commandID : Option String
deriving Repr, DecidableEq

/-- Modelled from the spec: src/Commit.js is not among the sources, only its
construction site in EventSourcedAggregate.commit. Per the spec, a Commit is an
ordered sequence of Events (may be empty), an aggregate id, the
expectedSequenceNumber used as the optimistic-concurrency key, and opaque
metadata. The constructor call in commit() passes the staged events, the
aggregate id and the current nextSequenceNumber, leaving metadata undefined. -/
structure Commit where
  events : List Event
  aggregateID : Option String
  expectedSequenceNumber : Nat
  metadata : Option String
deriving Repr, DecidableEq

/-- The error thrown by the dispatch logic when an applied event has no
registered handler (the throw in EventSourcedAggregate._applyEvent). -/
inductive ApplyError where
  | dispatchError (eventType : String)
deriving Repr, DecidableEq

/-- In-memory aggregate state, embedding the fields initialised by
_initializeAggregateMetadata: the aggregate id (undefined until assigned,
hence Option), the pending sequence number (starts at 1), the staged-event
buffer, plus the derived business state of type σ. The JavaScript object
dispatches events to methods named on<eventType>; that dynamic lookup is
embedded as the handlers map from type tag to an optional handler function
(a handler receives the current state, the event and the commit metadata).
_getSnapshotData is a prototype stub flagged unimplemented unless the concrete
type overrides it, embedded as an optional state-extraction function. -/
structure EventSourcedAggregate (σ : Type) where
  aggregateID : Option String
  nextSequenceNumber : Nat
  stagedEvents : List Event
  state : σ
  handlers : String → Option (σ → Event → Option String → σ)
  getSnapshotData : Option (σ → String)

/-- EventSourcedAggregate._applyEvent: look up the handler for the event type;
if it exists, invoke it on the current state, otherwise throw a dispatch
error (bailing out instead of silently skipping the event). -/
def applyEvent (agg : EventSourcedAggregate σ) (event : Event)
    (commitMetadata : Option String) :
    Except ApplyError (EventSourcedAggregate σ) :=
  match agg.handlers event.eventType with
  | some handler =>
      Except.ok { agg with state := handler agg.state event commitMetadata }
  | none => Except.error (ApplyError.dispatchError event.eventType)

/-- EventSourcedAggregate.applyCommit: apply every event of the commit, in the
order the commit holds them, passing the commit metadata to each handler; then
increment the internal sequence number counter once. -/
def applyCommit (agg : EventSourcedAggregate σ) (commit : Commit) :
    Except ApplyError (EventSourcedAggregate σ) := do
  let applied ← commit.events.foldlM
    (fun acc event => applyEvent acc event commit.metadata) agg
  Except.ok { applied with nextSequenceNumber := applied.nextSequenceNumber + 1 }

/-- The Commit object built by EventSourcedAggregate.commit: the staged events
in staging order, the aggregate id, and the current nextSequenceNumber as the
expected sequence number; the metadata argument is not passed (undefined). -/
def builtCommit (agg : EventSourcedAggregate σ) : Commit :=
  { events := agg.stagedEvents
    aggregateID := agg.aggregateID
    expectedSequenceNumber := agg.nextSequenceNumber
    metadata := none }

/-- Observable outcome of one commit() invocation: the aggregate afterwards,
the promise returned to the caller, and the commits submitted to the event
sink during the call. -/
structure CommitOutcome (σ ε ρ : Type) where
  aggregate : EventSourcedAggregate σ
  promise : Except ε ρ
  sinkCommits : List Commit

/-- EventSourcedAggregate.commit: build a Commit from the staged events and
sink it (unconditionally - the code notes that sinking an empty commit is a
valid operation and leaves its handling to the sink). On acceptance the staged
buffer is cleared, nextSequenceNumber advances by one and the promise resolves
with the sink result; on rejection nothing changes and the promise rejects
with the sink reason. The externally assigned event sink (_eventSink) is the
sink parameter. -/
def commitMethod (agg : EventSourcedAggregate σ)
    (sink : Commit → Except ε ρ) : CommitOutcome σ ε ρ :=
  match sink (builtCommit agg) with
  | Except.ok result =>
      { aggregate := { agg with
          stagedEvents := []
          nextSequenceNumber := agg.nextSequenceNumber + 1 }
        promise := Except.ok result
        sinkCommits := [builtCommit agg] }
  | Except.error reason =>
      { aggregate := agg
        promise := Except.error reason
        sinkCommits := [builtCommit agg] }

/-- An AggregateSnapshot as constructed by saveSnapshot: aggregate id, the
captured state payload, and the sequence number of the last committed commit.
Fields are optional because the JavaScript value may carry undefined in any
position; the well-formedness predicate below checks them. -/
structure AggregateSnapshot where
  aggregateID : Option String
  aggregateData : Option String
  sequenceNumber : Option Nat
deriving Repr, DecidableEq

/-- Modelled from the spec: src/utils/AggregateSnapshot.js is not among the
sources, only its callers. Per the spec, the well-formedness predicate checks
that the snapshot has a non-empty aggregate id, a sequence number and a state
payload. -/
def AggregateSnapshot.isAggregateSnapshot (s : AggregateSnapshot) : Bool :=
  (match s.aggregateID with
   | some id => id != ""
   | none => false) && s.aggregateData.isSome && s.sequenceNumber.isSome

/-- Observable outcome of one saveSnapshot() invocation on the aggregate: the
promise returned to the caller and the snapshots delegated to the snapshotter
during the call. -/
structure SaveSnapshotOutcome (ρ : Type) where
  promise : Except String ρ
  snapshotterCalls : List AggregateSnapshot

/-- The rejection reason used by saveSnapshot when the aggregate type does not
implement _getSnapshotData. -/
def snapshotUnsupportedReason : String :=
  "Not saving snapshot - aggregate does not implement _getSnapshotData()"

/-- EventSourcedAggregate.saveSnapshot: if the concrete type supplies a state
extraction function, build an AggregateSnapshot carrying the aggregate id, the
extracted state and nextSequenceNumber - 1, and delegate it to the assigned
snapshotter; otherwise reject with the snapshotting-unsupported reason without
contacting the snapshotter. -/
def saveSnapshotMethod (agg : EventSourcedAggregate σ)
    (snapshotter : AggregateSnapshot → Except String ρ) : SaveSnapshotOutcome ρ :=
  match agg.getSnapshotData with
  | some extract =>
      let snapshot : AggregateSnapshot :=
        { aggregateID := agg.aggregateID
          aggregateData := some (extract agg.state)
          sequenceNumber := some (agg.nextSequenceNumber - 1) }
      { promise := snapshotter snapshot
        snapshotterCalls := [snapshot] }
  | none =>
      { promise := Except.error snapshotUnsupportedReason
        snapshotterCalls := [] }

/-- The rejection reason used by DummyAggregateSnapshotter.saveSnapshot for a
value that fails the well-formedness predicate; the JavaScript message appends
a util.inspect dump of the offending value, embedded here via Repr. -/
def invalidSnapshotReason (s : AggregateSnapshot) : String :=
  "Object passed for saving is not a valid aggregate snapshot. Dump: " ++ reprStr s

/-- DummyAggregateSnapshotter state: the _snapshots map, keyed by aggregate id.
Stored as an association list where the most recent entry for a key wins. -/
structure DummyAggregateSnapshotter where
  snapshots : List (Option String × AggregateSnapshot)
deriving Repr, DecidableEq

/-- DummyAggregateSnapshotter.saveSnapshot: reject (storing nothing) when the
argument fails the AggregateSnapshot well-formedness predicate; otherwise
record the snapshot under its aggregate id and resolve. Returns the updated
store together with the promise handed to the caller. -/
def DummyAggregateSnapshotter.saveSnapshot (store : DummyAggregateSnapshotter)
    (aggregateSnapshot : AggregateSnapshot) :
    DummyAggregateSnapshotter × Except String Unit :=
  if AggregateSnapshot.isAggregateSnapshot aggregateSnapshot then
    ({ snapshots :=
        (aggregateSnapshot.aggregateID, aggregateSnapshot) :: store.snapshots },
     Except.ok ())
  else
    (store, Except.error (invalidSnapshotReason aggregateSnapshot))

/-- Errors reported by AggregateLoader.loadAggregate: a rehydration stage
failure propagated as-is, or the malformed-output condition raised when the
pipeline result fails the aggregate-capability check. -/
inductive LoaderError (ε α : Type) where
  | stageFailure (reason : ε)
  | loaderOutputMalformed (processedInstance : α)
deriving Repr, DecidableEq

/-- AggregateLoader: holds the ordered list of stage providers; each provider
contributes its rehydrateObject function, embedded directly as a function from
an aggregate instance to a promise of an aggregate instance. -/
structure AggregateLoader (α ε : Type) where
  stageProviders : List (α → Except ε α)

/-- The when/pipeline combinator used by loadAggregate: run the tasks in
sequence, each task receiving the result of the previous one, starting from
the initial argument; a task failure rejects the whole pipeline. -/
def runPipeline (stages : List (α → Except ε α)) (initial : α) : Except ε α :=
  stages.foldlM (fun acc stage => stage acc) initial

/-- Instrumented pipeline, recording the input each executed stage actually
received alongside the final result; stages after a failed one never run and
so contribute no entry. -/
def runPipelineTrace : List (α → Except ε α) → α → List α × Except ε α
  | [], x => ([], Except.ok x)
  | stage :: rest, x =>
      match stage x with
      | Except.ok next =>
          let tail := runPipelineTrace rest next
          (x :: tail.1, tail.2)
      | Except.error e => ([x], Except.error e)

/-- AggregateLoader.loadAggregate: construct the instance, assign the
aggregate id (via the chaining setter), thread the instance through the stage
providers with when/pipeline, then sanity-check the pipeline output with the
duck-typing aggregate-capability predicate (isAggregateInstance, passed in
because the typeof check has no direct typed counterpart). On success the
originally constructed instance - not the pipeline output - is handed to the
caller. -/
def AggregateLoader.loadAggregate (loader : AggregateLoader α ε)
    (aggregateConstructor : Unit → α) (setAggregateID : α → Option String → α)
    (isAggregateInstance : α → Bool) (aggregateID : Option String) :
    Except (LoaderError ε α) α :=
  let aggregateInstance := setAggregateID (aggregateConstructor ()) aggregateID
  match runPipeline loader.stageProviders aggregateInstance with
  | Except.error reason => Except.error (LoaderError.stageFailure reason)
  | Except.ok processedInstance =>
      if isAggregateInstance processedInstance then Except.ok aggregateInstance
      else Except.error (LoaderError.loaderOutputMalformed processedInstance)

/-- Modelled from the spec: the command deduplication wrapper utility is not
among the sources. The observable pieces it acts on: the aggregate business
state and the set of command ids already recorded as executed (from replayed
commits or from this instance staging events that carry a command id). -/
structure DedupState (σ : Type) where
  observableState : σ
  executedCommandIDs : List String
deriving Repr, DecidableEq

/-- Modelled from the spec: the deduplication wrapper takes the command id as
the qualifying argument; if that id has already been recorded as executed the
wrapped command method is skipped and the call is a no-op, otherwise the
command method runs and the id is recorded (commands return no value by
contract, so skipping is observably equivalent to re-execution). -/
def deduplicatedCommand (commandMethod : σ → σ) (commandID : String)
    (agg : DedupState σ) : DedupState σ :=
  if commandID ∈ agg.executedCommandIDs then agg
  else
    { observableState := commandMethod agg.observableState
      executedCommandIDs := commandID :: agg.executedCommandIDs }

/-! Concrete fixtures used to exercise the definitions. -/

/-- A concrete event handler over a Nat business state, incrementing it. -/
def incHandler : Nat → Event → Option String → Nat := fun s _ _ => s + 1

/-- A concrete handler registry with exactly one handled event type. -/
def sampleHandlers : String → Option (Nat → Event → Option String → Nat) :=
  fun tag => if tag = "Incremented" then some incHandler else none

/-- A concrete event of the handled type. -/
def sampleEvent : Event :=
  { eventType := "Incremented", payload := "n=1"
    aggregateID := some "AGG1", commandID := none }

/-- A concrete event of a type with no registered handler. -/
def unknownEvent : Event :=
  { eventType := "Vanished", payload := "n=0"
    aggregateID := some "AGG1", commandID := none }

/-- A concrete aggregate with two staged events and no snapshot support. -/
def sampleAggregate : EventSourcedAggregate Nat :=
  { aggregateID := some "AGG1", nextSequenceNumber := 1
    stagedEvents := [sampleEvent, sampleEvent], state := 2
    handlers := sampleHandlers, getSnapshotData := none }

/-- The sample aggregate with an emptied staged buffer. -/
def emptyBufferAggregate : EventSourcedAggregate Nat :=
  { sampleAggregate with stagedEvents := [] }

/-- A sink that accepts every commit. -/
def acceptingSink : Commit → Except String String := fun _ => Except.ok "stored"

/-- A sink that rejects every commit with a concurrency conflict. -/
def rejectingSink : Commit → Except String String :=
  fun _ => Except.error "concurrency conflict"

/-! Theorems about commit(). -/

/-- C1: counterexample. On a concrete aggregate whose staged-event buffer is
empty, commit() still invokes the sink (with an empty Commit), refuting the
claim that the sink is never contacted in that case; the code deliberately
sinks empty commits and leaves their handling to the sink. -/
theorem commit_empty_buffer_still_sinks_counterexample :
    emptyBufferAggregate.stagedEvents = [] ∧
    (commitMethod emptyBufferAggregate acceptingSink).sinkCommits ≠ [] := by
  constructor
  · rfl
  · decide

/-- C1 (amended): for every aggregate whose staged-event buffer is empty,
commit() still submits exactly one Commit - containing no events and carrying
expectedSequenceNumber = nextSequenceNumber - to the sink, and the returned
promise follows the sink response. -/
theorem commit_empty_buffer_sinks_one_empty_commit
    (agg : EventSourcedAggregate σ) (sink : Commit → Except ε ρ)
    (hempty : agg.stagedEvents = []) :
    (commitMethod agg sink).sinkCommits =
      [{ events := [], aggregateID := agg.aggregateID
         expectedSequenceNumber := agg.nextSequenceNumber, metadata := none }] ∧
    (commitMethod agg sink).promise =
      sink { events := [], aggregateID := agg.aggregateID
             expectedSequenceNumber := agg.nextSequenceNumber, metadata := none } := by
  have hb : builtCommit agg =
      { events := [], aggregateID := agg.aggregateID
        expectedSequenceNumber := agg.nextSequenceNumber, metadata := none } := by
    simp [builtCommit, hempty]
  have key : (commitMethod agg sink).sinkCommits = [builtCommit agg] ∧
      (commitMethod agg sink).promise = sink (builtCommit agg) := by
    unfold commitMethod
    cases hs : sink (builtCommit agg) <;> simp
  rw [hb] at key
  exact key

/-- C1 (amended) witness at a concrete empty-buffer aggregate and sink. -/
theorem commit_empty_buffer_sinks_one_empty_commit_witness :
    (commitMethod emptyBufferAggregate acceptingSink).sinkCommits =
      [{ events := [], aggregateID := some "AGG1"
         expectedSequenceNumber := 1, metadata := none }] ∧
    (commitMethod emptyBufferAggregate acceptingSink).promise =
      acceptingSink { events := [], aggregateID := some "AGG1"
                      expectedSequenceNumber := 1, metadata := none } :=
  commit_empty_buffer_sinks_one_empty_commit emptyBufferAggregate acceptingSink rfl

/-- C2: with a non-empty staged buffer, commit() submits exactly one Commit to
the sink, holding the staged events in staging order and
expectedSequenceNumber = nextSequenceNumber; when the sink accepts, the staged
buffer becomes empty, nextSequenceNumber advances by exactly one (independent
of how many events were staged) and the promise resolves with the sink
result. -/
theorem commit_nonempty_success (agg : EventSourcedAggregate σ)
    (sink : Commit → Except ε ρ) (result : ρ)
    (_hne : agg.stagedEvents ≠ [])
    (hsink : sink (builtCommit agg) = Except.ok result) :
    (commitMethod agg sink).sinkCommits = [builtCommit agg] ∧
    (builtCommit agg).events = agg.stagedEvents ∧
    (builtCommit agg).expectedSequenceNumber = agg.nextSequenceNumber ∧
    (commitMethod agg sink).aggregate.stagedEvents = [] ∧
    (commitMethod agg sink).aggregate.nextSequenceNumber =
      agg.nextSequenceNumber + 1 ∧
    (commitMethod agg sink).promise = Except.ok result := by
  unfold commitMethod
  rw [hsink]
  exact ⟨rfl, rfl, rfl, rfl, rfl, rfl⟩

/-- C2 witness: committing a concrete aggregate holding two staged events
through an accepting sink. -/
theorem commit_nonempty_success_witness :
    (commitMethod sampleAggregate acceptingSink).sinkCommits =
      [builtCommit sampleAggregate] ∧
    (builtCommit sampleAggregate).events = sampleAggregate.stagedEvents ∧
    (builtCommit sampleAggregate).expectedSequenceNumber =
      sampleAggregate.nextSequenceNumber ∧
    (commitMethod sampleAggregate acceptingSink).aggregate.stagedEvents = [] ∧
    (commitMethod sampleAggregate acceptingSink).aggregate.nextSequenceNumber =
      sampleAggregate.nextSequenceNumber + 1 ∧
    (commitMethod sampleAggregate acceptingSink).promise = Except.ok "stored" :=
  commit_nonempty_success sampleAggregate acceptingSink "stored" (by decide) rfl

/-- C3: when the sink rejects the submitted commit for any reason, the
aggregate - in particular its staged buffer and nextSequenceNumber - is
exactly as before the commit() call, and the promise is rejected with the
sink reason. -/
theorem commit_failure_preserves_state (agg : EventSourcedAggregate σ)
    (sink : Commit → Except ε ρ) (reason : ε)
    (hsink : sink (builtCommit agg) = Except.error reason) :
    (commitMethod agg sink).aggregate = agg ∧
    (commitMethod agg sink).aggregate.stagedEvents = agg.stagedEvents ∧
    (commitMethod agg sink).aggregate.nextSequenceNumber =
      agg.nextSequenceNumber ∧
    (commitMethod agg sink).promise = Except.error reason := by
  unfold commitMethod
  rw [hsink]
  exact ⟨rfl, rfl, rfl, rfl⟩

/-- C3 witness: a rejected commit on a concrete aggregate leaves it intact and
surfaces the rejection reason. -/
theorem commit_failure_preserves_state_witness :
    (commitMethod sampleAggregate rejectingSink).aggregate = sampleAggregate ∧
    (commitMethod sampleAggregate rejectingSink).aggregate.stagedEvents =
      sampleAggregate.stagedEvents ∧
    (commitMethod sampleAggregate rejectingSink).aggregate.nextSequenceNumber =
      sampleAggregate.nextSequenceNumber ∧
    (commitMethod sampleAggregate rejectingSink).promise =
      Except.error "concurrency conflict" :=
  commit_failure_preserves_state sampleAggregate rejectingSink
    "concurrency conflict" rfl

/-! Theorems about rehydration (applyCommit) and dispatch (_applyEvent). -/

/-- The fold of the registered handlers over a list of events, in list order.
Under the all-events-handled hypothesis of the theorems below the none branch
is never reached. -/
def stateAfterEvents {σ : Type}
    (handlers : String → Option (σ → Event → Option String → σ))
    (commitMetadata : Option String) : σ → List Event → σ
  | s, [] => s
  | s, event :: rest =>
      match handlers event.eventType with
      | some handler =>
          stateAfterEvents handlers commitMetadata
            (handler s event commitMetadata) rest
      | none => s

/-- Folding applyEvent over a list of events whose types all have handlers
succeeds and only folds the handlers over the business state, leaving every
other aggregate field (in particular nextSequenceNumber) untouched. -/
theorem foldlM_applyEvent_ok {σ : Type} (commitMetadata : Option String)
    (events : List Event) :
    ∀ agg : EventSourcedAggregate σ,
      (∀ e ∈ events, (agg.handlers e.eventType).isSome) →
      List.foldlM (fun acc event => applyEvent acc event commitMetadata)
          agg events =
        Except.ok { agg with
          state := stateAfterEvents agg.handlers commitMetadata
            agg.state events } := by
  induction events with
  | nil => intro agg _; rfl
  | cons e rest ih =>
      intro agg h
      obtain ⟨handler, heq⟩ :=
        Option.isSome_iff_exists.mp (h e (List.mem_cons_self e rest))
      have happly : applyEvent agg e commitMetadata =
          Except.ok { agg with state := handler agg.state e commitMetadata } := by
        simp [applyEvent, heq]
      rw [List.foldlM_cons, happly]
      have hbind :
          (Except.ok { agg with state := handler agg.state e commitMetadata } >>=
            fun acc => List.foldlM
              (fun acc event => applyEvent acc event commitMetadata) acc rest) =
          List.foldlM (fun acc event => applyEvent acc event commitMetadata)
            { agg with state := handler agg.state e commitMetadata } rest := rfl
      rw [hbind,
        ih { agg with state := handler agg.state e commitMetadata }
          (fun e' he' => h e' (List.mem_cons_of_mem e he'))]
      simp [stateAfterEvents, heq]

/-- C4: when every event type in the commit has a registered handler,
applyCommit applies the events to the business state in the commit internal
order (a left fold of the handlers) and then increments nextSequenceNumber by
exactly one, once per applyCommit call regardless of how many events the
commit holds. -/
theorem applyCommit_in_order_increments_once (agg : EventSourcedAggregate σ)
    (commit : Commit)
    (hhandled : ∀ e ∈ commit.events, (agg.handlers e.eventType).isSome) :
    applyCommit agg commit = Except.ok { agg with
      state := stateAfterEvents agg.handlers commit.metadata
        agg.state commit.events
      nextSequenceNumber := agg.nextSequenceNumber + 1 } := by
  unfold applyCommit
  rw [foldlM_applyEvent_ok commit.metadata commit.events agg hhandled]
  rfl

/-- A concrete two-event commit for exercising applyCommit. -/
def sampleCommit : Commit :=
  { events := [sampleEvent, sampleEvent], aggregateID := some "AGG1"
    expectedSequenceNumber := 1, metadata := some "ctx" }

/-- C4 witness: applying a concrete two-event commit folds both handlers over
the state (2 becomes 4) while nextSequenceNumber advances from 1 to 2 only. -/
theorem applyCommit_in_order_increments_once_witness :
    applyCommit sampleAggregate sampleCommit =
      Except.ok { sampleAggregate with state := 4, nextSequenceNumber := 2 } :=
  applyCommit_in_order_increments_once sampleAggregate sampleCommit (by decide)

/-- C5: dispatch refuses to skip events silently - applying an event whose
type has no registered handler fails with a dispatch error (producing no
updated aggregate), while applying an event whose type has a handler invokes
exactly that handler on the current state. -/
theorem applyEvent_dispatch (agg : EventSourcedAggregate σ) (event : Event)
    (commitMetadata : Option String) :
    (agg.handlers event.eventType = none →
      applyEvent agg event commitMetadata =
        Except.error (ApplyError.dispatchError event.eventType)) ∧
    (∀ handler, agg.handlers event.eventType = some handler →
      applyEvent agg event commitMetadata =
        Except.ok { agg with
          state := handler agg.state event commitMetadata }) := by
  constructor
  · intro h; simp [applyEvent, h]
  · intro handler h; simp [applyEvent, h]

/-- C5 witness: on a concrete aggregate, the unhandled event type raises the
dispatch error and the handled type invokes the registered handler. -/
theorem applyEvent_dispatch_witness :
    applyEvent sampleAggregate unknownEvent none =
      Except.error (ApplyError.dispatchError "Vanished") ∧
    applyEvent sampleAggregate sampleEvent none =
      Except.ok { sampleAggregate with state := 3 } :=
  ⟨(applyEvent_dispatch sampleAggregate unknownEvent none).1 rfl,
   (applyEvent_dispatch sampleAggregate sampleEvent none).2 incHandler rfl⟩

/-! Theorems about saveSnapshot(). -/

/-- C6: saveSnapshot on an aggregate type without a state-extraction function
rejects with the recoverable snapshotting-unsupported reason and never calls
the snapshotter; with a state-extraction function it delegates exactly one
AggregateSnapshot to the snapshotter, carrying the aggregate id, the extracted
state and sequenceNumber = nextSequenceNumber - 1, and returns the snapshotter
response. -/
theorem saveSnapshot_requires_extraction (agg : EventSourcedAggregate σ)
    (snapshotter : AggregateSnapshot → Except String ρ) :
    (agg.getSnapshotData = none →
      (saveSnapshotMethod agg snapshotter).promise =
        Except.error snapshotUnsupportedReason ∧
      (saveSnapshotMethod agg snapshotter).snapshotterCalls = []) ∧
    (∀ extract, agg.getSnapshotData = some extract →
      (saveSnapshotMethod agg snapshotter).snapshotterCalls =
        [{ aggregateID := agg.aggregateID
           aggregateData := some (extract agg.state)
           sequenceNumber := some (agg.nextSequenceNumber - 1) }] ∧
      (saveSnapshotMethod agg snapshotter).promise =
        snapshotter { aggregateID := agg.aggregateID
                      aggregateData := some (extract agg.state)
                      sequenceNumber := some (agg.nextSequenceNumber - 1) }) := by
  constructor
  · intro h
    constructor <;> simp [saveSnapshotMethod, h]
  · intro extract h
    constructor <;> simp [saveSnapshotMethod, h]

/-- The sample aggregate extended with a state-extraction function. -/
def snapAggregate : EventSourcedAggregate Nat :=
  { sampleAggregate with getSnapshotData := some (fun s => toString s) }

/-- A snapshotter that acknowledges every snapshot. -/
def ackSnapshotter : AggregateSnapshot → Except String String :=
  fun _ => Except.ok "ack"

/-- C6 witness: the aggregate without state extraction rejects without calling
the snapshotter; the aggregate with state extraction delegates the expected
snapshot (sequence number 0 = 1 - 1) and is acknowledged. -/
theorem saveSnapshot_requires_extraction_witness :
    ((saveSnapshotMethod sampleAggregate ackSnapshotter).promise =
        Except.error snapshotUnsupportedReason ∧
      (saveSnapshotMethod sampleAggregate ackSnapshotter).snapshotterCalls = []) ∧
    ((saveSnapshotMethod snapAggregate ackSnapshotter).snapshotterCalls =
        [{ aggregateID := some "AGG1", aggregateData := some "2"
           sequenceNumber := some 0 }] ∧
      (saveSnapshotMethod snapAggregate ackSnapshotter).promise =
        Except.ok "ack") :=
  ⟨(saveSnapshot_requires_extraction sampleAggregate ackSnapshotter).1 rfl,
   (saveSnapshot_requires_extraction snapAggregate ackSnapshotter).2
     (fun s => toString s) rfl⟩

/-! Theorems about the rehydration pipeline (AggregateLoader). -/

/-- The when/pipeline fold used by loadAggregate computes exactly the result
of the instrumented sequential run. -/
theorem runPipelineTrace_result {α ε : Type} (stages : List (α → Except ε α)) :
    ∀ x : α, runPipeline stages x = (runPipelineTrace stages x).2 := by
  induction stages with
  | nil => intro x; rfl
  | cons stage rest ih =>
      intro x
      cases hs : stage x with
      | ok next =>
          have hl : runPipeline (stage :: rest) x = runPipeline rest next := by
            show List.foldlM (fun acc g => g acc) x (stage :: rest) = _
            rw [List.foldlM_cons, hs]
            rfl
          rw [hl, ih next]
          simp [runPipelineTrace, hs]
      | error e =>
          have hl : runPipeline (stage :: rest) x = Except.error e := by
            show List.foldlM (fun acc g => g acc) x (stage :: rest) = _
            rw [List.foldlM_cons, hs]
            rfl
          rw [hl]
          simp [runPipelineTrace, hs]

/-- C7: loadAggregate runs the stage providers strictly in list order. The
pipeline used by loadAggregate agrees with the instrumented sequential run; in
that run a successful stage hands its output - and exactly its output - to the
next stage, a failing stage stops the run so that no later stage receives any
input, the first stage receives the freshly constructed instance with the id
assigned, and any stage failure makes loadAggregate reject with that
failure. -/
theorem loadAggregate_runs_stages_in_order {α ε : Type} :
    (∀ (stages : List (α → Except ε α)) (x : α),
        runPipeline stages x = (runPipelineTrace stages x).2) ∧
    (∀ (stage : α → Except ε α) (rest : List (α → Except ε α)) (x next : α),
        stage x = Except.ok next →
        runPipelineTrace (stage :: rest) x =
          (x :: (runPipelineTrace rest next).1, (runPipelineTrace rest next).2)) ∧
    (∀ (stage : α → Except ε α) (rest : List (α → Except ε α)) (x : α) (e : ε),
        stage x = Except.error e →
        runPipelineTrace (stage :: rest) x = ([x], Except.error e)) ∧
    (∀ (loader : AggregateLoader α ε) (ctor : Unit → α)
        (setID : α → Option String → α) (_isAgg : α → Bool) (id : Option String)
        (stage : α → Except ε α) (rest : List (α → Except ε α)),
        loader.stageProviders = stage :: rest →
        (runPipelineTrace loader.stageProviders (setID (ctor ()) id)).1.head? =
          some (setID (ctor ()) id)) ∧
    (∀ (loader : AggregateLoader α ε) (ctor : Unit → α)
        (setID : α → Option String → α) (isAgg : α → Bool) (id : Option String)
        (e : ε),
        runPipeline loader.stageProviders (setID (ctor ()) id) =
          Except.error e →
        loader.loadAggregate ctor setID isAgg id =
          Except.error (LoaderError.stageFailure e)) := by
  refine ⟨runPipelineTrace_result, ?_, ?_, ?_, ?_⟩
  · intro stage rest x next h
    simp [runPipelineTrace, h]
  · intro stage rest x e h
    simp [runPipelineTrace, h]
  · intro loader ctor setID _isAgg id stage rest h
    rw [h]
    cases hs : stage (setID (ctor ()) id) <;> simp [runPipelineTrace, hs]
  · intro loader ctor setID isAgg id e h
    simp [AggregateLoader.loadAggregate, h]

/-- A stage provider that increments a Nat-modelled instance. -/
def incStage : Nat → Except String Nat := fun n => Except.ok (n + 1)

/-- A stage provider that always fails. -/
def failStage : Nat → Except String Nat := fun _ => Except.error "stage failed"

/-- A stage provider that discards its input and returns a fresh object. -/
def swapStage : Nat → Except String Nat := fun _ => Except.ok 99

/-- Constructor, id setter and capability check for Nat-modelled instances:
construction yields 0 and assigning the id yields 5. -/
def natCtor : Unit → Nat := fun _ => 0

/-- The chaining aggregate-id setter for Nat-modelled instances. -/
def natSetID : Nat → Option String → Nat := fun n _ => n + 5

/-- A capability check accepting every Nat-modelled instance. -/
def natIsAgg : Nat → Bool := fun _ => true

/-- A loader whose first stage fails. -/
def failingLoader : AggregateLoader Nat String :=
  { stageProviders := [failStage, incStage] }

/-- A loader whose single stage returns a different object. -/
def swapLoader : AggregateLoader Nat String :=
  { stageProviders := [swapStage] }

/-- C7 witness: concrete runs showing pipeline/trace agreement, the threading
of a stage output into the next stage, the truncation after a failing stage,
the first stage receiving the constructed instance (5), and loadAggregate
rejecting with the stage failure. -/
theorem loadAggregate_runs_stages_in_order_witness :
    runPipeline [incStage, failStage] 5 =
      (runPipelineTrace [incStage, failStage] 5).2 ∧
    runPipelineTrace [incStage, failStage] 5 =
      (5 :: (runPipelineTrace [failStage] 6).1, (runPipelineTrace [failStage] 6).2) ∧
    runPipelineTrace [failStage, incStage] 5 = ([5], Except.error "stage failed") ∧
    (runPipelineTrace failingLoader.stageProviders
        (natSetID (natCtor ()) (some "AGG1"))).1.head? =
      some (natSetID (natCtor ()) (some "AGG1")) ∧
    failingLoader.loadAggregate natCtor natSetID natIsAgg (some "AGG1") =
      Except.error (LoaderError.stageFailure "stage failed") :=
  ⟨(loadAggregate_runs_stages_in_order (α := Nat) (ε := String)).1
      [incStage, failStage] 5,
   (loadAggregate_runs_stages_in_order).2.1 incStage [failStage] 5 6 rfl,
   (loadAggregate_runs_stages_in_order).2.2.1 failStage [incStage] 5
      "stage failed" rfl,
   (loadAggregate_runs_stages_in_order).2.2.2.1 failingLoader natCtor natSetID
      natIsAgg (some "AGG1") failStage [incStage] rfl,
   (loadAggregate_runs_stages_in_order).2.2.2.2 failingLoader natCtor natSetID
      natIsAgg (some "AGG1") "stage failed" rfl⟩

/-- C10: when the pipeline succeeds, its output is used only for the
aggregate-capability check - if the check passes, loadAggregate resolves with
the originally constructed instance (with the id assigned), not with the
pipeline output; if the check fails, it rejects with the malformed-output
error carrying the pipeline output. -/
theorem loadAggregate_returns_original_instance {α ε : Type}
    (loader : AggregateLoader α ε) (ctor : Unit → α)
    (setID : α → Option String → α) (isAgg : α → Bool) (id : Option String)
    (processedInstance : α)
    (hrun : runPipeline loader.stageProviders (setID (ctor ()) id) =
      Except.ok processedInstance) :
    (isAgg processedInstance = true →
      loader.loadAggregate ctor setID isAgg id =
        Except.ok (setID (ctor ()) id)) ∧
    (isAgg processedInstance = false →
      loader.loadAggregate ctor setID isAgg id =
        Except.error (LoaderError.loaderOutputMalformed processedInstance)) := by
  constructor <;> intro hcap <;>
    simp [AggregateLoader.loadAggregate, hrun, hcap]

/-- C10 witness: the single stage replaces the instance 5 by 99, yet
loadAggregate resolves with the original instance 5, not the pipeline
output 99. -/
theorem loadAggregate_returns_original_instance_witness :
    swapLoader.loadAggregate natCtor natSetID natIsAgg (some "AGG1") =
      Except.ok 5 ∧ (99 : Nat) ≠ 5 :=
  ⟨(loadAggregate_returns_original_instance swapLoader natCtor natSetID
      natIsAgg (some "AGG1") 99 rfl).1 rfl,
   by decide⟩

/-! Theorems about command deduplication. -/

/-- C8: a deduplication-wrapped command whose command id is already recorded
as executed (from replay or from earlier staging on this instance) is a no-op;
in particular, of two invocations sharing a command id only the first mutates
the observable state - repeating the invocation leaves the state of the first
invocation unchanged. -/
theorem deduplicated_command_second_noop {σ : Type} (commandMethod : σ → σ)
    (commandID : String) (agg : DedupState σ) :
    (commandID ∈ agg.executedCommandIDs →
      deduplicatedCommand commandMethod commandID agg = agg) ∧
    deduplicatedCommand commandMethod commandID
        (deduplicatedCommand commandMethod commandID agg) =
      deduplicatedCommand commandMethod commandID agg := by
  constructor
  · intro h
    simp [deduplicatedCommand, h]
  · by_cases h : commandID ∈ agg.executedCommandIDs
    · simp [deduplicatedCommand, h]
    · simp [deduplicatedCommand, h]

/-- A concrete deduplication state with one recorded command id. -/
def dedupFixture : DedupState Nat :=
  { observableState := 0, executedCommandIDs := ["cmd-1"] }

/-- C8 witness: invoking with the already-recorded id cmd-1 is a no-op, and a
repeated invocation with the fresh id cmd-2 changes nothing beyond the first
invocation. -/
theorem deduplicated_command_second_noop_witness :
    deduplicatedCommand Nat.succ "cmd-1" dedupFixture = dedupFixture ∧
    deduplicatedCommand Nat.succ "cmd-2"
        (deduplicatedCommand Nat.succ "cmd-2" dedupFixture) =
      deduplicatedCommand Nat.succ "cmd-2" dedupFixture :=
  ⟨(deduplicated_command_second_noop Nat.succ "cmd-1" dedupFixture).1 (by decide),
   (deduplicated_command_second_noop Nat.succ "cmd-2" dedupFixture).2⟩

/-! Theorems about the dummy snapshotter. -/

/-- C9: DummyAggregateSnapshotter.saveSnapshot rejects a value failing the
AggregateSnapshot well-formedness predicate and stores nothing; a well-formed
snapshot is stored under its aggregate id and acknowledged. -/
theorem dummy_snapshotter_save_validates (store : DummyAggregateSnapshotter)
    (s : AggregateSnapshot) :
    (AggregateSnapshot.isAggregateSnapshot s = false →
      (store.saveSnapshot s).1 = store ∧
      (store.saveSnapshot s).2 = Except.error (invalidSnapshotReason s)) ∧
    (AggregateSnapshot.isAggregateSnapshot s = true →
      (store.saveSnapshot s).1.snapshots.lookup s.aggregateID = some s ∧
      (store.saveSnapshot s).2 = Except.ok ()) := by
  constructor
  · intro h
    constructor <;> simp [DummyAggregateSnapshotter.saveSnapshot, h]
  · intro h
    constructor
    · simp [DummyAggregateSnapshotter.saveSnapshot, h, List.lookup]
    · simp [DummyAggregateSnapshotter.saveSnapshot, h]

/-- A snapshot failing the well-formedness predicate (missing aggregate id). -/
def invalidSnapshot : AggregateSnapshot :=
  { aggregateID := none, aggregateData := some "s0", sequenceNumber := some 1 }

/-- A well-formed snapshot. -/
def validSnapshot : AggregateSnapshot :=
  { aggregateID := some "AGG1", aggregateData := some "s0"
    sequenceNumber := some 1 }

/-- An empty dummy snapshotter store. -/
def emptyStore : DummyAggregateSnapshotter := { snapshots := [] }

/-- C9 witness: the id-less snapshot is rejected leaving the store unchanged;
the well-formed one is stored under its id and acknowledged. -/
theorem dummy_snapshotter_save_validates_witness :
    ((emptyStore.saveSnapshot invalidSnapshot).1 = emptyStore ∧
      (emptyStore.saveSnapshot invalidSnapshot).2 =
        Except.error (invalidSnapshotReason invalidSnapshot)) ∧
    ((emptyStore.saveSnapshot validSnapshot).1.snapshots.lookup (some "AGG1") =
        some validSnapshot ∧
      (emptyStore.saveSnapshot validSnapshot).2 = Except.ok ()) :=
  ⟨(dummy_snapshotter_save_validates emptyStore invalidSnapshot).1 rfl,
   (dummy_snapshotter_save_validates emptyStore validSnapshot).2 rfl⟩

end Esdf
